import Mathlib

/-!
Verification development for the terminal render-data query surface
(`terminalrenderdata.cpp`): scroll-to-range reconciliation, search-highlight
retrieval, pattern-interval lookup, fault-isolating accessors, and the
console-title getter.
-/

namespace TerminalCore

/-- The C++ `til::inclusive_rect`: a rectangle with inclusive edges, in buffer
coordinates. -/
structure InclusiveRect where
  left : Int
  top : Int
  right : Int
  bottom : Int
deriving DecidableEq, Repr

/-- The C++ `til::point`: a buffer-coordinate point (`x` column, `y` row). -/
structure Point where
  x : Int
  y : Int
deriving DecidableEq, Repr

/-- A row-scoped pattern interval of the interval tree, carrying an opaque
identifier (`interval.value` in the source). Modelled from the spec:
"(row-scoped interval, identifier) pairs, queried by point"; the columns
`left` (inclusive) to `right` (exclusive) span the interval on row `row`. -/
structure PatternInterval where
  row : Int
  left : Int
  right : Int
  value : Nat
deriving DecidableEq, Repr

/-- The slice of `Terminal` state that the functions under verification read
and write: `_mutableViewport`'s top row and height, `_scrollOffset`,
`_searchHighlights`, `_searchHighlightFocused`, `_patternIntervalTree`,
`_title`/`_startingTitle`, plus counters recording how many times the two
scroll side effects (`TriggerScroll`, `_NotifyScrollEvent`) have fired. -/
structure TermState where
  viewStart : Int
  viewHeight : Int
  scrollOffset : Int
  searchHighlights : List InclusiveRect
  searchHighlightFocused : List InclusiveRect
  patternIntervalTree : List PatternInterval
  title : Option String
  startingTitle : String
  triggerScrollCount : Nat
  notifyScrollCount : Nat
deriving DecidableEq, Repr

/-- Getter `ViewStartIndex()`: the top row of the mutable viewport, measured from the
top of the scrollback. Modelled from the spec: "the un-scrolled reference
frame"'s top row (`viewStartRow`); the getter itself is not part of the
excerpt. -/
def viewStartIndex (s : TermState) : Int :=
  s.viewStart

/-- Getter `_VisibleStartIndex()`: the top row of the currently visible viewport.
Modelled from the spec: "Scroll offset: distance, in rows, between the visible
viewport's top and the buffer's live (unscrolled) top", so the visible top is
`viewStartRow - scrollOffset`; the getter itself is not part of the excerpt. -/
def visibleStartIndex (s : TermState) : Int :=
  s.viewStart - s.scrollOffset

/-- Getter `_VisibleEndIndex()`: the last (inclusive) visible row. Modelled from the
spec: the viewport spans `viewHeight` rows starting at the visible top; the
getter itself is not part of the excerpt. -/
def visibleEndIndex (s : TermState) : Int :=
  visibleStartIndex s + s.viewHeight - 1

/-- Getter `_GetVisibleViewport().Top()`: the visible viewport's top row (inclusive).
Modelled from the spec: "the current viewport's top row (inclusive)". -/
def viewportTop (s : TermState) : Int :=
  visibleStartIndex s

/-- Getter `_GetVisibleViewport().BottomExclusive()`: one past the last visible row.
Modelled from the spec: "bottom row (exclusive)". -/
def viewportBottomExclusive (s : TermState) : Int :=
  visibleStartIndex s + s.viewHeight

/-- Method `Terminal::_ScrollToPoints(coordStart, coordEnd)`: if `coordStart.y` is
above the visible top, set `_scrollOffset = ViewStartIndex() - coordStart.y`;
else if `coordEnd.y` is below the visible bottom, set
`_scrollOffset = max(0, ViewStartIndex() - coordStart.y)`; if either branch
ran, fire `TriggerScroll` and `_NotifyScrollEvent`; return `_scrollOffset`. -/
def ScrollToPoints (s : TermState) (coordStart coordEnd : Point) :
    TermState × Int :=
  let step :=
    if coordStart.y < visibleStartIndex s then
      ({ s with scrollOffset := viewStartIndex s - coordStart.y }, true)
    else if coordEnd.y > visibleEndIndex s then
      ({ s with scrollOffset := max 0 (viewStartIndex s - coordStart.y) }, true)
    else
      (s, false)
  let s2 :=
    if step.2 then
      { step.1 with
        triggerScrollCount := step.1.triggerScrollCount + 1,
        notifyScrollCount := step.1.notifyScrollCount + 1 }
    else
      step.1
  (s2, s2.scrollOffset)

/-- The iterator slice `{ lowerIt, upperIt }` computed by
`Terminal::GetSearchHighlights` over a highlight list with viewport top row
`top` (inclusive) and bottom row `bottomExclusive` (exclusive):
`std::lower_bound` with `rect.top < value` applied to `top` yields, on a
partitioned range, the index of the first rectangle with `rect.top ≥ top`
(the length of the leading run satisfying `rect.top < top`);
`std::upper_bound` with `value < rect.top` applied to `bottomExclusive`
yields the index of the first rectangle with `bottomExclusive < rect.top`
(the length of the leading run satisfying `rect.top ≤ bottomExclusive`). -/
def GetSearchHighlightsOf (l : List InclusiveRect) (top bottomExclusive : Int) :
    List InclusiveRect :=
  (l.drop (l.takeWhile (fun r => decide (r.top < top))).length).take
    ((l.takeWhile (fun r => decide (r.top ≤ bottomExclusive))).length -
      (l.takeWhile (fun r => decide (r.top < top))).length)

/-- Method `Terminal::GetSearchHighlights()` (the non-throwing body): the slice of
`_searchHighlights` between `lower_bound(viewport.Top())` and
`upper_bound(viewport.BottomExclusive())`. -/
def GetSearchHighlights (s : TermState) : List InclusiveRect :=
  GetSearchHighlightsOf s.searchHighlights (viewportTop s)
    (viewportBottomExclusive s)

/-- Query `_patternIntervalTree.findOverlapping(...)`. Modelled from the spec: the
interval tree (an external collaborator, not in the excerpt) returns "all
intervals overlapping the half-open range `[location, location+1)` on the
matching row": an interval `[left, right)` on row `row` overlaps exactly when
`row = location.y`, `left ≤ location.x` and `location.x < right`. -/
def findOverlapping (tree : List PatternInterval) (location : Point) :
    List PatternInterval :=
  tree.filter (fun iv =>
    decide (iv.row = location.y) && decide (iv.left ≤ location.x) &&
      decide (location.x < iv.right))

/-- Method `Terminal::GetPatternId(location)`: query the interval tree for the
intervals overlapping `location`; if there are none, return the empty vector,
otherwise return the `value` of each overlapping interval. -/
def GetPatternId (s : TermState) (location : Point) : List Nat :=
  let intervals := findOverlapping s.patternIntervalTree location
  if intervals.length = 0 then
    []
  else
    intervals.map PatternInterval.value

/-- Method `Terminal::SetSearchHighlightFocused(highlight)`: if the list is non-empty,
scroll to the range from the first rectangle's top-left to the last
rectangle's bottom-right, then store the list in `_searchHighlightFocused`. -/
def SetSearchHighlightFocused (s : TermState)
    (highlight : List InclusiveRect) : TermState :=
  let s1 :=
    match highlight with
    | [] => s
    | first :: rest =>
      let last := rest.getLastD first
      (ScrollToPoints s ⟨first.left, first.top⟩ ⟨last.right, last.bottom⟩).1
  { s1 with searchHighlightFocused := highlight }

/-- The C++ `Microsoft::Console::Types::Viewport`: for these accessors, only its
construction from an inclusive rectangle (`Viewport::FromInclusive`)
matters. -/
structure Viewport where
  rect : InclusiveRect
deriving DecidableEq, Repr

/-- Constructor `Viewport::FromInclusive`. -/
def Viewport.fromInclusive (r : InclusiveRect) : Viewport :=
  ⟨r⟩

/-- Method `Terminal::GetSelectionRects()`: the body maps `_GetSelectionRects()`
(internal helper, not in the excerpt: its outcome — a rectangle list or an
internal failure — is the `selectionRects` argument) through
`Viewport::FromInclusive`; the function-level `catch (...)` logs and returns
the empty vector on any failure. -/
def GetSelectionRects (selectionRects : Except String (List InclusiveRect)) :
    List Viewport :=
  match selectionRects with
  | Except.ok rects => rects.map Viewport.fromInclusive
  | Except.error _ => []

/-- The function-level `catch (...)` of `Terminal::GetSearchHighlights()`.
Modelled from the spec: the body may raise an internal failure (e.g. while
building the result vector); `internalFault` injects that outcome. On a fault
the handler logs and returns the empty vector; otherwise the body's slice is
returned. -/
def GetSearchHighlightsCaught (s : TermState) (internalFault : Option String) :
    List InclusiveRect :=
  match internalFault with
  | some _ => []
  | none => GetSearchHighlights s

/-- Method `Terminal::GetConsoleTitle()`: the runtime title if one has been set,
otherwise the starting title. -/
def GetConsoleTitle (s : TermState) : String :=
  match s.title with
  | some t => t
  | none => s.startingTitle

/-- A concrete search-highlight rectangle with top row 90. -/
def rect90 : InclusiveRect := ⟨0, 90, 5, 90⟩

/-- A concrete search-highlight rectangle with top row 105. -/
def rect105 : InclusiveRect := ⟨0, 105, 5, 105⟩

/-- A concrete search-highlight rectangle with top row 124. -/
def rect124 : InclusiveRect := ⟨0, 124, 5, 124⟩

/-- A concrete search-highlight rectangle with top row 130. -/
def rect130 : InclusiveRect := ⟨0, 130, 5, 130⟩

/-- A concrete terminal state: mutable viewport starts at row 123, the
viewport is 24 rows tall, and the scroll offset is 23, so the visible rows
are `[100, 124)`; the stored highlights are sorted by top row, and two
pattern intervals cover column 5 of row 5. -/
def sampleState : TermState :=
  { viewStart := 123
    viewHeight := 24
    scrollOffset := 23
    searchHighlights := [rect90, rect105, rect124, rect130]
    searchHighlightFocused := []
    patternIntervalTree := [⟨5, 2, 7, 42⟩, ⟨5, 0, 6, 7⟩]
    title := some "running"
    startingTitle := "start"
    triggerScrollCount := 0
    notifyScrollCount := 0 }

/-- A concrete terminal state whose pattern interval tree is empty. -/
def emptyTreeState : TermState :=
  { sampleState with patternIntervalTree := [] }

theorem getSearchHighlightsOf_eq_filter (T B : Int) :
    ∀ l : List InclusiveRect, List.Pairwise (fun a b => a.top ≤ b.top) l →
      GetSearchHighlightsOf l T B =
        l.filter (fun r => decide (T ≤ r.top) && decide (r.top ≤ B)) := by
  intro l
  induction l with
  | nil => intro _; rfl
  | cons r rs ih =>
    intro hp
    rcases List.pairwise_cons.mp hp with ⟨hr, hrs⟩
    by_cases h1 : r.top < T
    · have h1' : ¬ T ≤ r.top := not_le.mpr h1
      by_cases h2 : r.top ≤ B
      · have := ih hrs
        simp only [GetSearchHighlightsOf] at this ⊢
        simpa [List.takeWhile_cons, h1, h2, h1', List.filter_cons,
          Nat.succ_sub_succ] using this
      · have hfil : rs.filter
            (fun x => decide (T ≤ x.top) && decide (x.top ≤ B)) = [] := by
          refine List.filter_eq_nil_iff.mpr ?_
          intro a ha
          have hB : B < r.top := not_le.mp h2
          have : r.top ≤ a.top := hr a ha
          simp [not_le.mpr (lt_of_lt_of_le hB this)]
        simp [GetSearchHighlightsOf, List.takeWhile_cons, h1, h2, h1',
          List.filter_cons, hfil]
    · have h1' : T ≤ r.top := not_lt.mp h1
      by_cases h2 : r.top ≤ B
      · have htw : rs.takeWhile (fun x => decide (x.top < T)) = [] := by
          cases rs with
          | nil => rfl
          | cons y ys =>
            have hy : r.top ≤ y.top := hr y (List.mem_cons_self y ys)
            simp [List.takeWhile_cons, not_lt.mpr (le_trans h1' hy)]
        have := ih hrs
        simp only [GetSearchHighlightsOf, htw, List.length_nil, Nat.sub_zero,
          List.drop_zero] at this
        simp only [GetSearchHighlightsOf]
        simp [List.takeWhile_cons, h1, h2, h1', List.filter_cons, htw, this]
      · have hfil : rs.filter
            (fun x => decide (T ≤ x.top) && decide (x.top ≤ B)) = [] := by
          refine List.filter_eq_nil_iff.mpr ?_
          intro a ha
          have hB : B < r.top := not_le.mp h2
          have : r.top ≤ a.top := hr a ha
          simp [not_le.mpr (lt_of_lt_of_le hB this)]
        simp [GetSearchHighlightsOf, List.takeWhile_cons, h1, h2, hfil,
          List.filter_cons]

theorem scrollToPoints_eq_above (s : TermState) (coordStart coordEnd : Point)
    (h : coordStart.y < visibleStartIndex s) :
    ScrollToPoints s coordStart coordEnd =
      ({ s with
          scrollOffset := viewStartIndex s - coordStart.y
          triggerScrollCount := s.triggerScrollCount + 1
          notifyScrollCount := s.notifyScrollCount + 1 },
        viewStartIndex s - coordStart.y) := by
  unfold ScrollToPoints
  rw [if_pos h]
  rfl

theorem scrollToPoints_eq_below (s : TermState) (coordStart coordEnd : Point)
    (h1 : ¬ coordStart.y < visibleStartIndex s)
    (h2 : coordEnd.y > visibleEndIndex s) :
    ScrollToPoints s coordStart coordEnd =
      ({ s with
          scrollOffset := max 0 (viewStartIndex s - coordStart.y)
          triggerScrollCount := s.triggerScrollCount + 1
          notifyScrollCount := s.notifyScrollCount + 1 },
        max 0 (viewStartIndex s - coordStart.y)) := by
  unfold ScrollToPoints
  rw [if_neg h1, if_pos h2]
  rfl

theorem scrollToPoints_eq_within (s : TermState) (coordStart coordEnd : Point)
    (h1 : ¬ coordStart.y < visibleStartIndex s)
    (h2 : ¬ coordEnd.y > visibleEndIndex s) :
    ScrollToPoints s coordStart coordEnd = (s, s.scrollOffset) := by
  unfold ScrollToPoints
  rw [if_neg h1, if_neg h2]
  rfl

/-- C2: when the start row is strictly above the visible top, the returned
offset and the stored offset are `ViewStartIndex() - start.y`, and the start
row becomes exactly the new visible top. -/
theorem scrollToPoints_above (s : TermState) (coordStart coordEnd : Point)
    (h : coordStart.y < visibleStartIndex s) :
    (ScrollToPoints s coordStart coordEnd).2 =
      viewStartIndex s - coordStart.y ∧
    (ScrollToPoints s coordStart coordEnd).1.scrollOffset =
      viewStartIndex s - coordStart.y ∧
    visibleStartIndex (ScrollToPoints s coordStart coordEnd).1 =
      coordStart.y := by
  rw [scrollToPoints_eq_above s coordStart coordEnd h]
  refine ⟨rfl, rfl, ?_⟩
  show s.viewStart - (s.viewStart - coordStart.y) = coordStart.y
  omega

/-- C2 (witness): scrolling to start row 50 from visible rows `[100, 124)`
with `ViewStartIndex() = 123` yields offset 73 and visible top 50. -/
theorem scrollToPoints_above_witness :
    (Point.mk 0 50).y < visibleStartIndex sampleState ∧
    ((ScrollToPoints sampleState ⟨0, 50⟩ ⟨0, 60⟩).2 =
        viewStartIndex sampleState - (Point.mk 0 50).y ∧
      (ScrollToPoints sampleState ⟨0, 50⟩ ⟨0, 60⟩).1.scrollOffset =
        viewStartIndex sampleState - (Point.mk 0 50).y ∧
      visibleStartIndex (ScrollToPoints sampleState ⟨0, 50⟩ ⟨0, 60⟩).1 =
        (Point.mk 0 50).y) :=
  ⟨by decide, scrollToPoints_above sampleState ⟨0, 50⟩ ⟨0, 60⟩ (by decide)⟩

/-- C3: when the start row is not above the visible top and the end row is
strictly below the visible bottom, the new offset is
`max(0, ViewStartIndex() - start.y)` and in particular non-negative. -/
theorem scrollToPoints_below (s : TermState) (coordStart coordEnd : Point)
    (h1 : ¬ coordStart.y < visibleStartIndex s)
    (h2 : coordEnd.y > visibleEndIndex s) :
    (ScrollToPoints s coordStart coordEnd).2 =
      max 0 (viewStartIndex s - coordStart.y) ∧
    0 ≤ (ScrollToPoints s coordStart coordEnd).2 := by
  rw [scrollToPoints_eq_below s coordStart coordEnd h1 h2]
  exact ⟨rfl, le_max_left _ _⟩

/-- C3 (witness): scrolling to rows 110..150 from visible rows `[100, 124)`
yields offset `max 0 (123 - 110) = 13 ≥ 0`. -/
theorem scrollToPoints_below_witness :
    ¬ (Point.mk 0 110).y < visibleStartIndex sampleState ∧
    (Point.mk 0 150).y > visibleEndIndex sampleState ∧
    ((ScrollToPoints sampleState ⟨0, 110⟩ ⟨0, 150⟩).2 =
        max 0 (viewStartIndex sampleState - (Point.mk 0 110).y) ∧
      0 ≤ (ScrollToPoints sampleState ⟨0, 110⟩ ⟨0, 150⟩).2) :=
  ⟨by decide, by decide,
    scrollToPoints_below sampleState ⟨0, 110⟩ ⟨0, 150⟩ (by decide) (by decide)⟩

/-- C4: a range already fully visible leaves the whole state and the offset
unchanged (so neither `TriggerScroll` nor `_NotifyScrollEvent` fires), and a
second call with the same range is likewise a no-op. -/
theorem scrollToPoints_contained (s : TermState) (coordStart coordEnd : Point)
    (h1 : ¬ coordStart.y < visibleStartIndex s)
    (h2 : ¬ coordEnd.y > visibleEndIndex s) :
    ScrollToPoints s coordStart coordEnd = (s, s.scrollOffset) ∧
    ScrollToPoints (ScrollToPoints s coordStart coordEnd).1 coordStart
        coordEnd = (s, s.scrollOffset) := by
  have hmain := scrollToPoints_eq_within s coordStart coordEnd h1 h2
  refine ⟨hmain, ?_⟩
  have hfst : (ScrollToPoints s coordStart coordEnd).1 = s :=
    congrArg Prod.fst hmain
  rw [hfst]
  exact hmain

/-- C4 (witness): the rows 105..120 lie inside the visible rows `[100, 124)`
and scrolling to them changes nothing, twice over. -/
theorem scrollToPoints_contained_witness :
    ¬ (Point.mk 0 105).y < visibleStartIndex sampleState ∧
    ¬ (Point.mk 0 120).y > visibleEndIndex sampleState ∧
    (ScrollToPoints sampleState ⟨0, 105⟩ ⟨0, 120⟩ =
        (sampleState, sampleState.scrollOffset) ∧
      ScrollToPoints (ScrollToPoints sampleState ⟨0, 105⟩ ⟨0, 120⟩).1
          ⟨0, 105⟩ ⟨0, 120⟩ = (sampleState, sampleState.scrollOffset)) :=
  ⟨by decide, by decide,
    scrollToPoints_contained sampleState ⟨0, 105⟩ ⟨0, 120⟩ (by decide)
      (by decide)⟩

/-- C5: in one call, if either branch condition holds then `TriggerScroll`
and `_NotifyScrollEvent` each fire exactly once; if neither holds the state
is untouched; when the first branch condition holds the offset is set by the
first branch alone, so at most one branch fires even when both conditions
hold; and the returned offset is the post-side-effect stored offset. -/
theorem scrollToPoints_effects (s : TermState) (coordStart coordEnd : Point) :
    ((coordStart.y < visibleStartIndex s ∨ coordEnd.y > visibleEndIndex s) →
      (ScrollToPoints s coordStart coordEnd).1.triggerScrollCount =
          s.triggerScrollCount + 1 ∧
        (ScrollToPoints s coordStart coordEnd).1.notifyScrollCount =
          s.notifyScrollCount + 1) ∧
    (¬ (coordStart.y < visibleStartIndex s ∨
          coordEnd.y > visibleEndIndex s) →
      (ScrollToPoints s coordStart coordEnd).1 = s) ∧
    (coordStart.y < visibleStartIndex s →
      (ScrollToPoints s coordStart coordEnd).1.scrollOffset =
        viewStartIndex s - coordStart.y) ∧
    (ScrollToPoints s coordStart coordEnd).2 =
      (ScrollToPoints s coordStart coordEnd).1.scrollOffset := by
  refine ⟨?_, ?_, ?_, rfl⟩
  · intro h
    by_cases h1 : coordStart.y < visibleStartIndex s
    · rw [scrollToPoints_eq_above s coordStart coordEnd h1]
      exact ⟨rfl, rfl⟩
    · rw [scrollToPoints_eq_below s coordStart coordEnd h1 (h.resolve_left h1)]
      exact ⟨rfl, rfl⟩
  · intro h
    rw [scrollToPoints_eq_within s coordStart coordEnd
      (fun hc => h (Or.inl hc)) (fun hc => h (Or.inr hc))]
  · intro h1
    rw [scrollToPoints_eq_above s coordStart coordEnd h1]

/-- C5 (witness): with start row 50 above the visible top, both side-effect
counters go from 0 to 1. -/
theorem scrollToPoints_effects_witness :
    (ScrollToPoints sampleState ⟨0, 50⟩ ⟨0, 60⟩).1.triggerScrollCount =
        sampleState.triggerScrollCount + 1 ∧
    (ScrollToPoints sampleState ⟨0, 50⟩ ⟨0, 60⟩).1.notifyScrollCount =
      sampleState.notifyScrollCount + 1 :=
  (scrollToPoints_effects sampleState ⟨0, 50⟩ ⟨0, 60⟩).1 (Or.inl (by decide))

/-- C9: if the prior scroll offset is non-negative (so the visible top is at
or below the un-scrolled top), the offset after `_ScrollToPoints` is
non-negative in every branch — including the above-viewport branch, which
has no explicit clamp. -/
theorem scrollToPoints_offset_nonneg (s : TermState)
    (coordStart coordEnd : Point) (h : 0 ≤ s.scrollOffset) :
    0 ≤ (ScrollToPoints s coordStart coordEnd).1.scrollOffset := by
  by_cases h1 : coordStart.y < visibleStartIndex s
  · rw [scrollToPoints_eq_above s coordStart coordEnd h1]
    show 0 ≤ s.viewStart - coordStart.y
    simp only [visibleStartIndex] at h1
    omega
  · by_cases h2 : coordEnd.y > visibleEndIndex s
    · rw [scrollToPoints_eq_below s coordStart coordEnd h1 h2]
      exact le_max_left _ _
    · rw [scrollToPoints_eq_within s coordStart coordEnd h1 h2]
      exact h

/-- C9 (witness): from offset 23, scrolling to start row 50 (above the
viewport) keeps the offset non-negative. -/
theorem scrollToPoints_offset_nonneg_witness :
    (0 : Int) ≤ sampleState.scrollOffset ∧
    0 ≤ (ScrollToPoints sampleState ⟨0, 50⟩ ⟨0, 60⟩).1.scrollOffset :=
  ⟨by decide,
    scrollToPoints_offset_nonneg sampleState ⟨0, 50⟩ ⟨0, 60⟩ (by decide)⟩

/-- C1 (counterexample): with visible rows `[100, 124)` and sorted highlights
at top rows 90, 105, 124, 130, `GetSearchHighlights` returns the rectangles
at top rows 105 and 124 — including the rectangle whose top row equals the
exclusive bottom row 124, which the claim says is not returned; the result is
therefore not the `[T, B)` filter the claim describes. -/
theorem getSearchHighlights_bottom_row_cex :
    List.Pairwise (fun a b => a.top ≤ b.top) sampleState.searchHighlights ∧
    viewportTop sampleState = 100 ∧
    viewportBottomExclusive sampleState = 124 ∧
    GetSearchHighlights sampleState = [rect105, rect124] ∧
    GetSearchHighlights sampleState ≠
      sampleState.searchHighlights.filter (fun r =>
        decide (viewportTop sampleState ≤ r.top) &&
          decide (r.top < viewportBottomExclusive sampleState)) :=
  ⟨by decide, by decide, by decide, by decide, by decide⟩

/-- C1 (amended): over a highlight set sorted ascending by top row,
`GetSearchHighlights` returns exactly the rectangles whose top row lies in
the closed interval `[T, B]` — inclusive of the exclusive bottom row `B` —
in their original stored order, as a contiguous slice of the stored
sequence. -/
theorem getSearchHighlights_visible_slice (s : TermState)
    (hsorted : List.Pairwise (fun a b => a.top ≤ b.top) s.searchHighlights) :
    GetSearchHighlights s =
      s.searchHighlights.filter (fun r =>
        decide (viewportTop s ≤ r.top) &&
          decide (r.top ≤ viewportBottomExclusive s)) :=
  getSearchHighlightsOf_eq_filter _ _ _ hsorted

/-- C1 (witness): the amended theorem applied to the concrete sorted state
with visible rows `[100, 124)`. -/
theorem getSearchHighlights_visible_slice_witness :
    List.Pairwise (fun a b => a.top ≤ b.top) sampleState.searchHighlights ∧
    GetSearchHighlights sampleState =
      sampleState.searchHighlights.filter (fun r =>
        decide (viewportTop sampleState ≤ r.top) &&
          decide (r.top ≤ viewportBottomExclusive sampleState)) :=
  ⟨by decide, getSearchHighlights_visible_slice sampleState (by decide)⟩

/-- C6: `GetPatternId` returns the empty list when the interval index is
empty or when no interval overlaps the queried point, and otherwise returns
the identifier of every overlapping interval, one per interval. -/
theorem getPatternId_overlapping (s : TermState) (location : Point) :
    (s.patternIntervalTree = [] → GetPatternId s location = []) ∧
    (findOverlapping s.patternIntervalTree location = [] →
      GetPatternId s location = []) ∧
    GetPatternId s location =
      (findOverlapping s.patternIntervalTree location).map
        PatternInterval.value := by
  refine ⟨?_, ?_, ?_⟩
  · intro h
    simp [GetPatternId, findOverlapping, h]
  · intro h
    simp [GetPatternId, h]
  · by_cases h : (findOverlapping s.patternIntervalTree location).length = 0
    · simp [GetPatternId, h, List.length_eq_zero.mp h]
    · simp [GetPatternId, h]

/-- C6 (witness): the empty index yields the empty identifier list, and the
two intervals of the concrete state overlapping column 5 of row 5 yield both
identifiers. -/
theorem getPatternId_overlapping_witness :
    GetPatternId emptyTreeState ⟨5, 5⟩ = [] ∧
    GetPatternId sampleState ⟨5, 5⟩ = [42, 7] :=
  ⟨(getPatternId_overlapping emptyTreeState ⟨5, 5⟩).1 (by decide),
    by decide⟩

/-- C7: a non-empty focused highlight list is stored and the Viewport
Reconciler runs on the bounding range from the first rectangle's top-left to
the last rectangle's bottom-right; the empty list is stored with no scroll
call and no change to the scroll offset. -/
theorem setSearchHighlightFocused_behavior (s : TermState) :
    (∀ (first : InclusiveRect) (rest : List InclusiveRect),
      SetSearchHighlightFocused s (first :: rest) =
        { (ScrollToPoints s ⟨first.left, first.top⟩
            ⟨(rest.getLastD first).right, (rest.getLastD first).bottom⟩).1 with
          searchHighlightFocused := first :: rest }) ∧
    SetSearchHighlightFocused s [] = { s with searchHighlightFocused := [] } :=
  ⟨fun _ _ => rfl, rfl⟩

/-- C8: the catch-all boundaries of `GetSelectionRects` and
`GetSearchHighlights` convert every internal failure into the empty sequence
(both accessors are total functions into plain lists, so no failure can
propagate), and pass the computed result through when nothing fails. -/
theorem accessors_never_propagate_failure (e : String) (s : TermState)
    (rects : List InclusiveRect) :
    GetSelectionRects (Except.error e) = [] ∧
    GetSearchHighlightsCaught s (some e) = [] ∧
    GetSelectionRects (Except.ok rects) = rects.map Viewport.fromInclusive ∧
    GetSearchHighlightsCaught s none = GetSearchHighlights s :=
  ⟨rfl, rfl, rfl, rfl⟩

/-- C10: `GetConsoleTitle` returns the runtime title whenever one has been
set, otherwise the starting title; it is a total function whose result
depends only on those two fields. -/
theorem getConsoleTitle_behavior (s : TermState) :
    (∀ t, s.title = some t → GetConsoleTitle s = t) ∧
    (s.title = none → GetConsoleTitle s = s.startingTitle) ∧
    (∀ s' : TermState, s'.title = s.title →
      s'.startingTitle = s.startingTitle →
      GetConsoleTitle s' = GetConsoleTitle s) := by
  refine ⟨?_, ?_, ?_⟩
  · intro t h
    simp [GetConsoleTitle, h]
  · intro h
    simp [GetConsoleTitle, h]
  · intro s' h1 h2
    simp [GetConsoleTitle, h1, h2]

/-- C10 (witness): the concrete state has runtime title "running" and
starting title "start"; the getter returns the former, and with the runtime
title cleared it returns the latter. -/
theorem getConsoleTitle_behavior_witness :
    GetConsoleTitle sampleState = "running" ∧
    GetConsoleTitle { sampleState with title := none } =
      ({ sampleState with title := none } : TermState).startingTitle :=
  ⟨(getConsoleTitle_behavior sampleState).1 "running" rfl,
    (getConsoleTitle_behavior { sampleState with title := none }).2.1 rfl⟩

end TerminalCore
